import Mathlib

/-!
Shallow embedding of the snake-game service in `app.py` (notsajeed/snake-api).

The Python module keeps one mutable `game_state` dict; we model it as the
record `GameState`.  The two nondeterministic effects are modelled by explicit
inputs:

* `random.randint` draws inside `generate_food`'s rejection loop are supplied
  as a list `cands` of candidate cells; the loop returns the first candidate
  not occupied by the snake, and `none` models the loop not terminating within
  the supplied draws.
* `datetime.now().isoformat()` is supplied as a string argument `now`.

Python integers are `Int` (coordinates can go negative at a wall collision
check), the score is a `Nat`, directions are the raw strings the HTTP layer
passes in.
-/

namespace SnakeApi

/-- A board cell, `[x, y]` in the Python source. -/
abbrev Cell := Int × Int

/-- `BOARD_WIDTH = 20` (app.py line 11). -/
def BOARD_WIDTH : Int := 20

/-- `BOARD_HEIGHT = 15` (app.py line 12). -/
def BOARD_HEIGHT : Int := 15

/-- `CELL_SIZE = 20` (app.py line 10), used only by the renderer. -/
def CELL_SIZE : Nat := 20

/-- The `game_state` dict of app.py. -/
structure GameState where
  board : Cell
  snake : List Cell
  dir : String
  food : Cell
  score : Nat
  game_over : Bool
  last_move : String
deriving Repr, DecidableEq

/-- `get_initial_state()` (app.py lines 24-33). -/
def get_initial_state (now : String) : GameState :=
  { board := (BOARD_WIDTH, BOARD_HEIGHT)
    snake := [(10, 7), (9, 7), (8, 7)]
    dir := "right"
    food := (15, 7)
    score := 0
    game_over := false
    last_move := now }

/-- `generate_food(snake, board_w, board_h)` (app.py lines 35-41): keep drawing
random cells until one is free.  The random draws are the list `cands`; the
result is the first candidate not in `snake`, `none` if every supplied
candidate is occupied (the Python loop would keep drawing). -/
def generate_food (cands : List Cell) (snake : List Cell) : Option Cell :=
  cands.find? (fun c => !(snake.contains c))

/-- The `valid_moves` dict lookup of app.py lines 52-59:
`direction in valid_moves and valid_moves[direction]`. -/
def dirAllowed (cur d : String) : Bool :=
  (d == "up" && cur != "down") ||
  (d == "down" && cur != "up") ||
  (d == "left" && cur != "right") ||
  (d == "right" && cur != "left")

/-- The direction actually stored by app.py lines 59-60: the requested one if
allowed, otherwise the current one is retained. -/
def step_dir (state : GameState) (direction : String) : String :=
  if dirAllowed state.dir direction then direction else state.dir

/-- Head offset (app.py lines 63-70).  A stored direction outside the four
cardinal strings leaves the head where it is (no `elif` branch fires). -/
def moveHead (h : Cell) (dir : String) : Cell :=
  if dir = "up" then (h.1, h.2 - 1)
  else if dir = "down" then (h.1, h.2 + 1)
  else if dir = "left" then (h.1 - 1, h.2)
  else if dir = "right" then (h.1 + 1, h.2)
  else h

/-- app.py lines 62-91, after the direction update: move the head, check
collisions against the pre-move snake, then either grow (head on food) or
translate (pop the tail).  `h` is `snake[0]`. -/
def move_body (cands : List Cell) (now : String) (state : GameState)
    (dir' : String) (h : Cell) : Option GameState :=
  let head := moveHead h dir'
  if head.1 < 0 ∨ BOARD_WIDTH ≤ head.1 ∨ head.2 < 0 ∨ BOARD_HEIGHT ≤ head.2 ∨
      head ∈ state.snake then
    some { state with dir := dir', game_over := true }
  else
    let snake' := head :: state.snake
    if head = state.food then
      match generate_food cands snake' with
      | none => none
      | some f =>
          some { state with
                 dir := dir'
                 snake := snake'
                 food := f
                 score := state.score + 10
                 last_move := now }
    else
      some { state with dir := dir', snake := snake'.dropLast, last_move := now }

/-- `move_snake(state, direction)` (app.py lines 43-91).  Returns `none` when
the Python code would not return a state: `snake[0]` on an empty snake raises,
and the food loop may not terminate within the supplied draws. -/
def move_snake (cands : List Cell) (now : String) (state : GameState)
    (direction : String) : Option GameState :=
  if state.game_over then some state
  else
    match state.snake with
    | [] => none
    | h :: _ => move_body cands now state (step_dir state direction) h

/-- `reset_game()`'s state effect (app.py lines 192-197): reinitialize, then
regenerate the food. -/
def reset_state (cands : List Cell) (now : String) : Option GameState :=
  let s := get_initial_state now
  match generate_food cands s.snake with
  | none => none
  | some f => some { s with food := f }

/-- The JSON body `move_game` answers with (app.py lines 165 and 170-175). -/
inductive MoveResponse where
  | invalidDirection
  | moved (direction : String) (score : Nat) (game_over : Bool)
deriving Repr, DecidableEq

/-- The list literal of app.py line 164. -/
def VALID_DIRS : List String := ["up", "down", "left", "right"]

/-- app.py lines 157-161: if the game is over, reinitialize, seed the new
state's direction with the raw request argument and regenerate the food —
before the direction is validated. -/
def reinit_if_over (cands : List Cell) (now : String) (gs : GameState)
    (direction : String) : Option GameState :=
  if gs.game_over then
    match generate_food cands (get_initial_state now).snake with
    | none => none
    | some f => some { get_initial_state now with dir := direction, food := f }
  else some gs

/-- `move_game(direction)` (app.py lines 149-175).  `gs0 = none` models an
uninitialized `game_state`; `cands1` feeds the reset-branch `generate_food`,
`cands2` the one inside `move_snake`. -/
def move_game (cands1 cands2 : List Cell) (now : String) (gs0 : Option GameState)
    (direction : String) : Option (GameState × MoveResponse) :=
  let gs := gs0.getD (get_initial_state now)
  match reinit_if_over cands1 now gs direction with
  | none => none
  | some gs1 =>
    if VALID_DIRS.contains direction then
      match move_snake cands2 now gs1 direction with
      | none => none
      | some gs2 => some (gs2, .moved direction gs2.score gs2.game_over)
    else
      some (gs1, .invalidDirection)

/-- A sequence of `move_snake` calls, each with its own random draws,
timestamp and requested direction. -/
def run_moves (reqs : List (List Cell × String × String)) (s : GameState) :
    Option GameState :=
  match reqs with
  | [] => some s
  | (cands, now, d) :: rest =>
    match move_snake cands now s d with
    | none => none
    | some s' => run_moves rest s'

/-- The exact reverse of a cardinal direction — the pairings ruled out by the
`valid_moves` dict (app.py lines 52-57). -/
def reverseDir : String → String
  | "up" => "down"
  | "down" => "up"
  | "left" => "right"
  | "right" => "left"
  | d => d

/-- States the one global session can reach: lazy/process-start initialization,
`/reset`, and `move_snake` steps. -/
inductive Reachable : GameState → Prop where
  | init (now : String) : Reachable (get_initial_state now)
  | reset {s : GameState} (cands : List Cell) (now : String) :
      reset_state cands now = some s → Reachable s
  | step {s s' : GameState} (cands : List Cell) (now direction : String) :
      Reachable s → move_snake cands now s direction = some s' → Reachable s'

/-- States reachable from the initial state by `move_snake` calls alone. -/
inductive ReachableAdv : GameState → Prop where
  | init (now : String) : ReachableAdv (get_initial_state now)
  | step {s s' : GameState} (cands : List Cell) (now direction : String) :
      ReachableAdv s → move_snake cands now s direction = some s' → ReachableAdv s'

/-- A cell inside the `[0, BOARD_WIDTH) x [0, BOARD_HEIGHT)` board. -/
def inBoard (c : Cell) : Prop :=
  0 ≤ c.1 ∧ c.1 < BOARD_WIDTH ∧ 0 ≤ c.2 ∧ c.2 < BOARD_HEIGHT

instance (c : Cell) : Decidable (inBoard c) := by
  unfold inBoard
  infer_instance

/-- `COLORS['bg']` (app.py line 14). -/
def COLORS_bg : String := "#0d1117"

/-- `COLORS['snake']` (app.py line 15). -/
def COLORS_snake : String := "#238636"

/-- `COLORS['head']` (app.py line 16). -/
def COLORS_head : String := "#2ea043"

/-- `COLORS['food']` (app.py line 17). -/
def COLORS_food : String := "#da3633"

/-- `COLORS['grid']` (app.py line 18). -/
def COLORS_grid : String := "#21262d"

/-- `width = BOARD_WIDTH * CELL_SIZE = 400` pixels (app.py line 95). -/
def widthPx : Nat := BOARD_WIDTH.toNat * CELL_SIZE

/-- `height = BOARD_HEIGHT * CELL_SIZE = 300` pixels (app.py line 96). -/
def heightPx : Nat := BOARD_HEIGHT.toNat * CELL_SIZE

/-- The SVG opening and background rectangle (app.py lines 98-100). -/
def svgHeader : String :=
  "<svg width=\"" ++ toString widthPx ++ "\" height=\"" ++ toString heightPx ++
    "\" xmlns=\"http://www.w3.org/2000/svg\">\n    <rect width=\"" ++
    toString widthPx ++ "\" height=\"" ++ toString heightPx ++ "\" fill=\"" ++
    COLORS_bg ++ "\"/>\n"

/-- One vertical grid line (app.py line 104). -/
def gridVLine (x : Nat) : String :=
  "    <line x1=\"" ++ toString x ++ "\" y1=\"0\" x2=\"" ++ toString x ++
    "\" y2=\"" ++ toString heightPx ++ "\" stroke=\"" ++ COLORS_grid ++
    "\" stroke-width=\"1\" opacity=\"0.1\"/>\n"

/-- One horizontal grid line (app.py line 106). -/
def gridHLine (y : Nat) : String :=
  "    <line x1=\"0\" y1=\"" ++ toString y ++ "\" x2=\"" ++ toString widthPx ++
    "\" y2=\"" ++ toString y ++ "\" stroke=\"" ++ COLORS_grid ++
    "\" stroke-width=\"1\" opacity=\"0.1\"/>\n"

/-- `range(0, limit + 1, CELL_SIZE)` (app.py lines 103 and 105): the pixel
multiples of the cell size up to `limit` inclusive. -/
def gridSteps (limit : Nat) : List Nat :=
  (List.range (limit / CELL_SIZE + 1)).map (fun i => i * CELL_SIZE)

/-- The food square (app.py lines 109-113). -/
def foodPiece (food : Cell) : String :=
  "    <rect x=\"" ++ toString (food.1 * (CELL_SIZE : Int) + 2) ++ "\" y=\"" ++
    toString (food.2 * (CELL_SIZE : Int) + 2) ++ "\" width=\"" ++
    toString (CELL_SIZE - 4) ++ "\" height=\"" ++ toString (CELL_SIZE - 4) ++
    "\" fill=\"" ++ COLORS_food ++ "\" rx=\"3\"/>\n"

/-- The `str()` of the opacity of body segment `i` (app.py line 121).  The
Python source computes `max(0.6, 1.0 - i * 0.05)` in floating point and
interpolates its text form; the value is modelled exactly in hundredths and
printed with the trailing zero trimmed (`0.6`, `0.65`, ..., `0.95`). -/
def opacityStr (i : Nat) : String :=
  let hundredths := max 60 (100 - 5 * i)
  if hundredths % 10 == 0 then "0." ++ toString (hundredths / 10)
  else "0." ++ toString hundredths

/-- One snake segment square (app.py lines 116-123): the head (`i = 0`) in the
head color at full opacity, body segments in the snake color fading with
depth. -/
def snakePiece (i : Nat) (c : Cell) : String :=
  "    <rect x=\"" ++ toString (c.1 * (CELL_SIZE : Int) + 1) ++ "\" y=\"" ++
    toString (c.2 * (CELL_SIZE : Int) + 1) ++ "\" width=\"" ++
    toString (CELL_SIZE - 2) ++ "\" height=\"" ++ toString (CELL_SIZE - 2) ++
    "\" fill=\"" ++ (if i = 0 then COLORS_head else COLORS_snake) ++
    "\" opacity=\"" ++ (if i = 0 then "1.0" else opacityStr i) ++ "\" rx=\"2\"/>\n"

/-- The full-canvas semi-transparent black rectangle of the game-over overlay
(app.py line 127). -/
def overlayRect : String :=
  "    <rect x=\"0\" y=\"0\" width=\"" ++ toString widthPx ++ "\" height=\"" ++
    toString heightPx ++ "\" fill=\"black\" opacity=\"0.7\"/>\n"

/-- The game-over overlay block (app.py lines 126-131): the overlay rectangle,
the centered "GAME OVER" title, the centered score and the restart hint. -/
def gameOverPiece (score : Nat) : String :=
  overlayRect ++
    "    <text x=\"" ++ toString (widthPx / 2) ++ "\" y=\"" ++
    toString (heightPx / 2 - 20) ++
    "\" text-anchor=\"middle\" fill=\"white\" font-family=\"Arial, sans-serif\" font-size=\"24\" font-weight=\"bold\">" ++
    "GAME OVER" ++
    "</text>\n    <text x=\"" ++ toString (widthPx / 2) ++ "\" y=\"" ++
    toString (heightPx / 2 + 10) ++
    "\" text-anchor=\"middle\" fill=\"white\" font-family=\"Arial, sans-serif\" font-size=\"16\">Score: " ++
    toString score ++
    "</text>\n    <text x=\"" ++ toString (widthPx / 2) ++ "\" y=\"" ++
    toString (heightPx / 2 + 35) ++
    "\" text-anchor=\"middle\" fill=\"" ++ COLORS_snake ++
    "\" font-family=\"Arial, sans-serif\" font-size=\"12\">Click any direction to restart</text>\n"

/-- The bottom-left score readout shown while the game is live (app.py
line 134). -/
def scorePiece (score : Nat) : String :=
  "    <text x=\"10\" y=\"" ++ toString (heightPx - 10) ++ "\" fill=\"" ++
    COLORS_snake ++
    "\" font-family=\"Arial, sans-serif\" font-size=\"14\" font-weight=\"bold\">Score: " ++
    toString score ++ "</text>\n"

/-- The pieces `render_svg` concatenates, in emission order (app.py lines
93-137): header and background, grid lines, food, snake segments, then either
the game-over overlay or the score readout, and the closing tag. -/
def svgPieces (s : GameState) : List String :=
  [svgHeader] ++
    (gridSteps widthPx).map gridVLine ++
    (gridSteps heightPx).map gridHLine ++
    [foodPiece s.food] ++
    s.snake.enum.map (fun p => snakePiece p.1 p.2) ++
    [if s.game_over then gameOverPiece s.score else scorePiece s.score] ++
    ["</svg>"]

/-- `render_svg(state)` (app.py lines 93-137). -/
def render_svg (s : GameState) : String :=
  String.join (svgPieces s)

/-- `small` occurs as a contiguous substring of `big`. -/
def occursIn (small big : String) : Prop :=
  ∃ a b, big = a ++ (small ++ b)

/-- A concrete live state one step away from the food: head `(14, 7)`, heading
right, food at `(15, 7)`. -/
def eatDemoPre : GameState :=
  { get_initial_state "0" with snake := [(14, 7), (13, 7), (12, 7)] }

/-- The state `move_snake [(0, 0)] "t" eatDemoPre "right"` produces: the snake
ate the food, grew to four segments, and the food respawned at `(0, 0)`. -/
def eatDemoPost : GameState :=
  { get_initial_state "0" with
    snake := [(15, 7), (14, 7), (13, 7), (12, 7)]
    food := (0, 0)
    score := 10
    last_move := "t" }

section Sanity

-- Scenario A of the spec: three moves right translate the snake, score 0.
example :
    move_snake [] "t" (get_initial_state "0") "right" =
      some { get_initial_state "0" with
             snake := [(11, 7), (10, 7), (9, 7)]
             last_move := "t" } := by decide

-- Reversal ignored: moving "left" from the initial (dir "right") state keeps
-- moving right.
example :
    move_snake [] "t" (get_initial_state "0") "left" =
      move_snake [] "t" (get_initial_state "0") "right" := by decide

-- Wall collision freezes snake/food/score and raises game_over.
example :
    move_snake [] "t" { get_initial_state "0" with snake := [(19, 7), (18, 7), (17, 7)] }
        "right" =
      some { get_initial_state "0" with
             snake := [(19, 7), (18, 7), (17, 7)]
             game_over := true } := by decide

-- Eating: head (14,7) moving right onto food (15,7) grows and scores.
example :
    move_snake [(0, 0)] "t"
        { get_initial_state "0" with snake := [(14, 7), (13, 7), (12, 7)] } "right" =
      some { get_initial_state "0" with
             snake := [(15, 7), (14, 7), (13, 7), (12, 7)], food := (0, 0),
             score := 10, last_move := "t" } := by decide

end Sanity

/-- C5: with `game_over = true`, `move_snake` returns the state untouched, for
any requested direction, random draws and timestamp, and any number of
repeated calls: every field — snake, food, score, direction, `last_move` —
stays frozen. -/
theorem move_snake_game_over_frozen (s : GameState) (hgo : s.game_over = true) :
    (∀ cands now direction, move_snake cands now s direction = some s) ∧
    (∀ reqs, run_moves reqs s = some s) := by
  have hone : ∀ cands now direction, move_snake cands now s direction = some s := by
    intro cands now direction
    simp [move_snake, hgo]
  refine ⟨hone, ?_⟩
  intro reqs
  induction reqs with
  | nil => rfl
  | cons r rest ih =>
    obtain ⟨cands, now, d⟩ := r
    simpa [run_moves, hone] using ih

/-- Witness for `move_snake_game_over_frozen` at a concrete finished state. -/
theorem move_snake_game_over_frozen_witness :
    move_snake [(1, 1)] "t" { get_initial_state "0" with game_over := true } "up" =
        some { get_initial_state "0" with game_over := true } ∧
      run_moves [([], "t", "up"), ([(2, 2)], "u", "left")]
          { get_initial_state "0" with game_over := true } =
        some { get_initial_state "0" with game_over := true } :=
  ⟨(move_snake_game_over_frozen _ rfl).1 [(1, 1)] "t" "up",
   (move_snake_game_over_frozen _ rfl).2 [([], "t", "up"), ([(2, 2)], "u", "left")]⟩

/-- C2: from a live state, if the new head — the head offset one cell in the
possibly-updated direction — leaves the `[0,20) x [0,15)` board or lands on
any cell of the pre-move snake (the current tail included), the move only
updates the stored direction and sets `game_over := true`: snake, food and
score are untouched. -/
theorem move_snake_collision (cands : List Cell) (now : String) (s : GameState)
    (direction : String) (hgo : s.game_over = false) (h0 : Cell) (t : List Cell)
    (hs : s.snake = h0 :: t)
    (hcol : (moveHead h0 (step_dir s direction)).1 < 0 ∨
      BOARD_WIDTH ≤ (moveHead h0 (step_dir s direction)).1 ∨
      (moveHead h0 (step_dir s direction)).2 < 0 ∨
      BOARD_HEIGHT ≤ (moveHead h0 (step_dir s direction)).2 ∨
      moveHead h0 (step_dir s direction) ∈ s.snake) :
    move_snake cands now s direction =
      some { s with dir := step_dir s direction, game_over := true } := by
  unfold move_snake
  rw [hgo, hs]
  simp only [Bool.false_eq_true, if_false]
  unfold move_body
  rw [if_pos hcol, hs]

/-- Witness for `move_snake_collision`: head at `(19, 7)` moving right hits
`x = 20`. -/
theorem move_snake_collision_witness :
    move_snake [] "t"
        { get_initial_state "0" with snake := [(19, 7), (18, 7), (17, 7)] } "right" =
      some { { get_initial_state "0" with snake := [(19, 7), (18, 7), (17, 7)] } with
             dir := step_dir
               { get_initial_state "0" with snake := [(19, 7), (18, 7), (17, 7)] } "right"
             game_over := true } :=
  move_snake_collision [] "t" _ "right" rfl (19, 7) [(18, 7), (17, 7)] rfl
    (by decide)

lemma step_dir_self (s : GameState) : step_dir s s.dir = s.dir := by
  unfold step_dir
  split <;> rfl

lemma step_dir_reverse (s : GameState) (hdir : s.dir ∈ VALID_DIRS) :
    step_dir s (reverseDir s.dir) = s.dir := by
  simp only [VALID_DIRS, List.mem_cons, List.mem_singleton, List.not_mem_nil,
    or_false] at hdir
  rcases hdir with h | h | h | h <;>
    simp [step_dir, reverseDir, dirAllowed, h]

lemma move_body_dir {cands : List Cell} {now : String} {state : GameState}
    {dir' : String} {h : Cell} {s' : GameState}
    (hmv : move_body cands now state dir' h = some s') : s'.dir = dir' := by
  simp only [move_body] at hmv
  split at hmv
  · cases hmv
    rfl
  · split at hmv
    · split at hmv
      · cases hmv
      · cases hmv
        rfl
    · cases hmv
      rfl

/-- C4: from a live state whose stored direction is one of the four, requesting
the exact reverse gives the very same result as requesting the current
direction, and the stored direction of the outcome is the current one. -/
theorem move_snake_reverse_ignored (cands : List Cell) (now : String)
    (s : GameState) (hgo : s.game_over = false) (hdir : s.dir ∈ VALID_DIRS) :
    move_snake cands now s (reverseDir s.dir) = move_snake cands now s s.dir ∧
      ∀ s', move_snake cands now s s.dir = some s' → s'.dir = s.dir := by
  constructor
  · unfold move_snake
    rw [step_dir_self, step_dir_reverse s hdir]
  · intro s' hmv
    unfold move_snake at hmv
    rw [hgo] at hmv
    simp only [Bool.false_eq_true, if_false] at hmv
    rcases hsn : s.snake with _ | ⟨h0, t⟩
    · rw [hsn] at hmv
      cases hmv
    · rw [hsn] at hmv
      rw [move_body_dir hmv, step_dir_self]

/-- Witness for `move_snake_reverse_ignored` at the initial state (moving
"left" while heading "right"). -/
theorem move_snake_reverse_ignored_witness :
    (move_snake [] "t" (get_initial_state "0") (reverseDir (get_initial_state "0").dir) =
        move_snake [] "t" (get_initial_state "0") (get_initial_state "0").dir) ∧
      ({ get_initial_state "0" with
         snake := [(11, 7), (10, 7), (9, 7)]
         last_move := "t" } : GameState).dir = (get_initial_state "0").dir :=
  ⟨(move_snake_reverse_ignored [] "t" (get_initial_state "0") rfl (by decide)).1,
   (move_snake_reverse_ignored [] "t" (get_initial_state "0") rfl (by decide)).2 _
     (by decide)⟩

/-- C3: a successful non-colliding move either leaves snake length, food and
score unchanged (the new head — the head of the new snake — is not the food),
or the new head is exactly the food cell, the snake grows by one, the score by
ten, and the regenerated food is outside the new snake. -/
theorem move_snake_step_dichotomy (cands : List Cell) (now : String)
    (s : GameState) (direction : String) (s' : GameState)
    (hgo : s.game_over = false)
    (hmv : move_snake cands now s direction = some s')
    (hok : s'.game_over = false) :
    (s'.snake.head? ≠ some s.food ∧ s'.snake.length = s.snake.length ∧
        s'.food = s.food ∧ s'.score = s.score) ∨
      (s'.snake.head? = some s.food ∧ s'.snake.length = s.snake.length + 1 ∧
        s'.score = s.score + 10 ∧ s'.food ∉ s'.snake) := by
  unfold move_snake at hmv
  rw [hgo] at hmv
  simp only [Bool.false_eq_true, if_false] at hmv
  rcases hsn : s.snake with _ | ⟨h0, t⟩
  · rw [hsn] at hmv
    cases hmv
  · rw [hsn] at hmv
    simp only [move_body] at hmv
    split at hmv
    · cases hmv
      simp at hok
    · rename_i hncol
      split at hmv
      · rename_i hfood
        split at hmv
        · cases hmv
        · rename_i f hf
          cases hmv
          right
          refine ⟨by simp [hfood], by simp [hsn], rfl, ?_⟩
          simp only [generate_food, List.find?] at hf
          have hp := List.find?_some hf
          simpa using hp
      · rename_i hfood
        cases hmv
        left
        refine ⟨?_, ?_, rfl, rfl⟩
        · rw [hsn]
          simpa [List.dropLast] using hfood
        · rw [hsn]
          simp [List.dropLast, List.length_dropLast]

/-- Witness for `move_snake_step_dichotomy`: eating the food at `(15, 7)`. -/
theorem move_snake_step_dichotomy_witness :
    (eatDemoPost.snake.head? ≠ some eatDemoPre.food ∧
        eatDemoPost.snake.length = eatDemoPre.snake.length ∧
        eatDemoPost.food = eatDemoPre.food ∧ eatDemoPost.score = eatDemoPre.score) ∨
      (eatDemoPost.snake.head? = some eatDemoPre.food ∧
        eatDemoPost.snake.length = eatDemoPre.snake.length + 1 ∧
        eatDemoPost.score = eatDemoPre.score + 10 ∧
        eatDemoPost.food ∉ eatDemoPost.snake) :=
  move_snake_step_dichotomy [(0, 0)] "t" eatDemoPre "right" eatDemoPost
    (by decide) (by decide) (by decide)

lemma move_snake_scoreLen {cands : List Cell} {now : String} {s : GameState}
    {direction : String} {s' : GameState}
    (hmv : move_snake cands now s direction = some s')
    (hlen : 3 ≤ s.snake.length) (hsc : s.score = (s.snake.length - 3) * 10) :
    3 ≤ s'.snake.length ∧ s'.score = (s'.snake.length - 3) * 10 := by
  unfold move_snake at hmv
  split at hmv
  · cases hmv
    exact ⟨hlen, hsc⟩
  · rcases hsn : s.snake with _ | ⟨h0, t⟩
    · rw [hsn] at hmv
      cases hmv
    · rw [hsn] at hmv
      simp only [move_body] at hmv
      split at hmv
      · cases hmv
        exact ⟨hlen, hsc⟩
      · split at hmv
        · split at hmv
          · cases hmv
          · cases hmv
            refine ⟨?_, ?_⟩ <;> simp only [List.length_cons] <;> omega
        · cases hmv
          refine ⟨?_, ?_⟩ <;>
            simp only [List.length_dropLast, List.length_cons] <;> omega

lemma reachable_scoreLen {s : GameState} (h : Reachable s) :
    3 ≤ s.snake.length ∧ s.score = (s.snake.length - 3) * 10 := by
  induction h with
  | init now => exact ⟨Nat.le.refl, rfl⟩
  | reset cands now hr =>
    simp only [reset_state] at hr
    split at hr
    · cases hr
    · cases hr
      exact ⟨Nat.le.refl, rfl⟩
  | step cands now direction hre hmv ih => exact move_snake_scoreLen hmv ih.1 ih.2

/-- C1 counterexample: already in the initial state (3 segments, score 0) the
claimed equation `(len(snake) - 1) * 10 == score` fails: `20 ≠ 0`. -/
theorem score_len_minus_one_counterexample :
    ¬ (((get_initial_state "0").snake.length - 1) * 10 =
        (get_initial_state "0").score) := by
  decide

/-- C1 (amended): for every state reachable by `move_snake` calls and resets,
`(len(snake) - 3) * 10 == score` — the offset is the initial length 3, not 1. -/
theorem reachable_score_len_amended {s : GameState} (h : Reachable s) :
    (s.snake.length - 3) * 10 = s.score :=
  ((reachable_scoreLen h).2).symm

/-- Witness for `reachable_score_len_amended` at the initial state. -/
theorem reachable_score_len_amended_witness :
    (((get_initial_state "0").snake.length - 3) * 10 = (get_initial_state "0").score) :=
  reachable_score_len_amended (Reachable.init "0")

lemma reachableAdv_scoreLen {s : GameState} (h : ReachableAdv s) :
    3 ≤ s.snake.length ∧ s.score = (s.snake.length - 3) * 10 := by
  induction h with
  | init now => exact ⟨Nat.le.refl, rfl⟩
  | step cands now direction hre hmv ih => exact move_snake_scoreLen hmv ih.1 ih.2

/-- C9: along any sequence of `move_snake` calls from the initial state
(3 segments, score 0), the score is exactly ten times the number of segments
grown beyond the initial length. -/
theorem score_growth_invariant {s : GameState} (h : ReachableAdv s) :
    s.score = (s.snake.length - 3) * 10 :=
  (reachableAdv_scoreLen h).2

/-- Witness for `score_growth_invariant` at the initial state. -/
theorem score_growth_invariant_witness :
    (get_initial_state "0").score = (((get_initial_state "0").snake.length - 3) * 10) :=
  score_growth_invariant (ReachableAdv.init "0")

lemma move_snake_inv {cands : List Cell} {now : String} {s : GameState}
    {direction : String} {s' : GameState}
    (hmv : move_snake cands now s direction = some s')
    (hbd : s.game_over = false → ∀ c ∈ s.snake, inBoard c)
    (hnd : s.snake.Nodup) (hfd : s.food ∉ s.snake) :
    (s'.game_over = false → ∀ c ∈ s'.snake, inBoard c) ∧ s'.snake.Nodup ∧
      s'.food ∉ s'.snake := by
  unfold move_snake at hmv
  split at hmv
  · cases hmv
    exact ⟨hbd, hnd, hfd⟩
  · rename_i hgo
    simp only [Bool.not_eq_true] at hgo
    rcases hsn : s.snake with _ | ⟨h0, t⟩
    · rw [hsn] at hmv
      cases hmv
    · rw [hsn] at hmv
      simp only [move_body] at hmv
      split at hmv
      · cases hmv
        refine ⟨fun habs => by simp at habs, hnd, hfd⟩
      · rename_i hncol
        push_neg at hncol
        obtain ⟨hx0, hxW, hy0, hyH, hmem⟩ := hncol
        have hhead : inBoard (moveHead h0 (step_dir s direction)) :=
          ⟨hx0, hxW, hy0, hyH⟩
        split at hmv
        · rename_i hfood
          split at hmv
          · cases hmv
          · rename_i f hf
            cases hmv
            refine ⟨fun _ c hc => ?_, List.nodup_cons.mpr ⟨hmem, hnd⟩, ?_⟩
            · simp only [List.mem_cons] at hc
              rcases hc with rfl | hc
              · exact hhead
              · exact hbd hgo c hc
            · simp only [generate_food] at hf
              have hp := List.find?_some hf
              simpa using hp
        · rename_i hfood
          cases hmv
          refine ⟨fun _ c hc => ?_, ?_, ?_⟩
          · have hc' := (List.dropLast_sublist _).subset hc
            simp only [List.mem_cons] at hc'
            rcases hc' with rfl | hc'
            · exact hhead
            · exact hbd hgo c hc'
          · exact List.Nodup.sublist (List.dropLast_sublist _)
              (List.nodup_cons.mpr ⟨hmem, hnd⟩)
          · intro habs
            have hin := (List.dropLast_sublist _).subset habs
            simp only [List.mem_cons] at hin
            rcases hin with heq | hin
            · exact hfood heq.symm
            · exact hfd hin

/-- C6: every state the session can reach — by initialization, `move_snake`
steps and resets — has all snake cells on the board while the game is live,
a duplicate-free snake, and the food outside the snake. -/
theorem reachable_state_invariant {s : GameState} (h : Reachable s) :
    (s.game_over = false → ∀ c ∈ s.snake, inBoard c) ∧ s.snake.Nodup ∧
      s.food ∉ s.snake := by
  induction h with
  | init now =>
    refine ⟨fun _ c hc => ?_, ?_, ?_⟩
    · simp only [get_initial_state, List.mem_cons, List.not_mem_nil, or_false] at hc
      rcases hc with rfl | rfl | rfl <;> decide
    · show ([(10, 7), (9, 7), (8, 7)] : List Cell).Nodup
      decide
    · show ((15, 7) : Cell) ∉ ([(10, 7), (9, 7), (8, 7)] : List Cell)
      decide
  | reset cands now hr =>
    simp only [reset_state] at hr
    split at hr
    · cases hr
    · rename_i f hf
      cases hr
      refine ⟨fun _ c hc => ?_, ?_, ?_⟩
      · simp only [get_initial_state, List.mem_cons, List.not_mem_nil, or_false] at hc
        rcases hc with rfl | rfl | rfl <;> decide
      · show ([(10, 7), (9, 7), (8, 7)] : List Cell).Nodup
        decide
      · simp only [generate_food] at hf
        have hp := List.find?_some hf
        simpa using hp
  | step cands now direction hre hmv ih => exact move_snake_inv hmv ih.1 ih.2.1 ih.2.2

/-- Witness for `reachable_state_invariant` at the initial state. -/
theorem reachable_state_invariant_witness :
    ((get_initial_state "0").game_over = false →
        ∀ c ∈ (get_initial_state "0").snake, inBoard c) ∧
      (get_initial_state "0").snake.Nodup ∧
      (get_initial_state "0").food ∉ (get_initial_state "0").snake :=
  reachable_state_invariant (Reachable.init "0")

lemma contains_false_of_invalid {direction : String} (hd : direction ∉ VALID_DIRS) :
    VALID_DIRS.contains direction = false := by
  simp only [VALID_DIRS, List.mem_cons, List.not_mem_nil, or_false, not_or] at hd
  obtain ⟨h1, h2, h3, h4⟩ := hd
  have e1 : (direction == "up") = false := beq_eq_false_iff_ne.mpr h1
  have e2 : (direction == "down") = false := beq_eq_false_iff_ne.mpr h2
  have e3 : (direction == "left") = false := beq_eq_false_iff_ne.mpr h3
  have e4 : (direction == "right") = false := beq_eq_false_iff_ne.mpr h4
  simp [VALID_DIRS, List.contains, List.elem, e1, e2, e3, e4]

/-- C8: a `/move/<direction>` request whose argument is not one of
up/down/left/right is answered with the error response and `move_snake` is
never applied: the final state is exactly the state after the
reset-if-game-over preamble, nothing more. -/
theorem invalid_direction_rejected (cands1 cands2 : List Cell) (now : String)
    (gs0 : Option GameState) (direction : String) (hd : direction ∉ VALID_DIRS) :
    move_game cands1 cands2 now gs0 direction =
      (reinit_if_over cands1 now (gs0.getD (get_initial_state now)) direction).map
        (fun g => (g, MoveResponse.invalidDirection)) := by
  have hc := contains_false_of_invalid hd
  simp only [move_game]
  cases hre : reinit_if_over cands1 now (gs0.getD (get_initial_state now)) direction with
  | none => simp
  | some gs1 => simp [hc, hd]

/-- Witness for `invalid_direction_rejected`: direction "diag" on a live
initial state. -/
theorem invalid_direction_rejected_witness :
    move_game [] [] "t" (some (get_initial_state "0")) "diag" =
      (reinit_if_over [] "t"
          ((some (get_initial_state "0")).getD (get_initial_state "t")) "diag").map
        (fun g => (g, MoveResponse.invalidDirection)) :=
  invalid_direction_rejected [] [] "t" (some (get_initial_state "0")) "diag"
    (by decide)

/-- C10: an unrecognized direction is rejected, but not atomically.  With
`game_over = false` the state is left untouched; with `game_over = true` the
state has already been reinitialized when the rejection is issued — its `dir`
field holds the unrecognized string and its food has been regenerated. -/
theorem invalid_direction_state_effect (cands1 cands2 : List Cell) (now : String)
    (gs : GameState) (direction : String) (hd : direction ∉ VALID_DIRS) :
    (gs.game_over = false →
        move_game cands1 cands2 now (some gs) direction =
          some (gs, MoveResponse.invalidDirection)) ∧
      (gs.game_over = true →
        move_game cands1 cands2 now (some gs) direction =
          (generate_food cands1 (get_initial_state now).snake).map
            (fun f => ({ get_initial_state now with dir := direction, food := f },
              MoveResponse.invalidDirection))) := by
  have hc := contains_false_of_invalid hd
  constructor
  · intro hgo
    simp [move_game, reinit_if_over, hgo, hc, hd]
  · intro hgo
    simp only [move_game, reinit_if_over, hgo, Option.getD, if_true]
    cases hf : generate_food cands1 (get_initial_state now).snake with
    | none => simp
    | some f => simp [hc, hd]

/-- Witness for `invalid_direction_state_effect`: direction "diag", both on a
live state and on a finished state. -/
theorem invalid_direction_state_effect_witness :
    (((get_initial_state "0").game_over = false →
        move_game [(3, 3)] [] "t" (some (get_initial_state "0")) "diag" =
          some (get_initial_state "0", MoveResponse.invalidDirection)) ∧
      ((get_initial_state "0").game_over = true →
        move_game [(3, 3)] [] "t" (some (get_initial_state "0")) "diag" =
          (generate_food [(3, 3)] (get_initial_state "t").snake).map
            (fun f => ({ get_initial_state "t" with dir := "diag", food := f },
              MoveResponse.invalidDirection)))) ∧
      (({ get_initial_state "0" with game_over := true } : GameState).game_over = true →
        move_game [(3, 3)] [] "t"
            (some { get_initial_state "0" with game_over := true }) "diag" =
          (generate_food [(3, 3)] (get_initial_state "t").snake).map
            (fun f => ({ get_initial_state "t" with dir := "diag", food := f },
              MoveResponse.invalidDirection))) :=
  ⟨invalid_direction_state_effect [(3, 3)] [] "t" (get_initial_state "0") "diag"
      (by decide),
   (invalid_direction_state_effect [(3, 3)] [] "t"
      { get_initial_state "0" with game_over := true } "diag" (by decide)).2⟩

lemma join_append (xs ys : List String) :
    String.join (xs ++ ys) = String.join xs ++ String.join ys := by
  apply String.ext
  simp [String.data_join, String.data_append]

lemma join_singleton (x : String) : String.join [x] = x := by
  apply String.ext
  simp [String.data_join]

lemma occursIn_refl (s : String) : occursIn s s :=
  ⟨"", "", by rw [String.empty_append, String.append_empty]⟩

lemma occursIn_end (pre small : String) : occursIn small (pre ++ small) :=
  ⟨pre, "", by rw [String.append_empty]⟩

lemma occursIn_append_l {small l : String} (r : String) (h : occursIn small l) :
    occursIn small (l ++ r) := by
  obtain ⟨a, b, rfl⟩ := h
  exact ⟨a, b ++ r, by rw [String.append_assoc, String.append_assoc]⟩

lemma occursIn_append_r {small r : String} (l : String) (h : occursIn small r) :
    occursIn small (l ++ r) := by
  obtain ⟨a, b, rfl⟩ := h
  exact ⟨l ++ a, b, by rw [String.append_assoc]⟩

lemma svgHeader_get5 : svgHeader.data.get? 5 = some 'w' := by
  simp only [svgHeader, String.data_append, List.append_assoc]
  rw [List.get?_append (by decide)]
  decide

lemma gridVLine_get5 (x : Nat) : (gridVLine x).data.get? 5 = some 'l' := by
  simp only [gridVLine, String.data_append, List.append_assoc]
  rw [List.get?_append (by decide)]
  decide

lemma gridHLine_get5 (y : Nat) : (gridHLine y).data.get? 5 = some 'l' := by
  simp only [gridHLine, String.data_append, List.append_assoc]
  rw [List.get?_append (by decide)]
  decide

lemma foodPiece_get5 (c : Cell) : (foodPiece c).data.get? 5 = some 'r' := by
  simp only [foodPiece, String.data_append, List.append_assoc]
  rw [List.get?_append (by decide)]
  decide

lemma snakePiece_get5 (i : Nat) (c : Cell) :
    (snakePiece i c).data.get? 5 = some 'r' := by
  simp only [snakePiece, String.data_append, List.append_assoc]
  rw [List.get?_append (by decide)]
  decide

lemma gameOverPiece_get5 (k : Nat) : (gameOverPiece k).data.get? 5 = some 'r' := by
  simp only [gameOverPiece, overlayRect, String.data_append, List.append_assoc]
  rw [List.get?_append (by decide)]
  decide

lemma scorePiece_get5 (k : Nat) : (scorePiece k).data.get? 5 = some 't' := by
  simp only [scorePiece, String.data_append, List.append_assoc]
  rw [List.get?_append (by decide)]
  decide

lemma closeTag_get5 : ("</svg>" : String).data.get? 5 = some '>' := by decide

lemma gameOverPiece_rget2 (k : Nat) :
    (gameOverPiece k).data.reverse.get? 2 = some 't' := by
  simp only [gameOverPiece, overlayRect, String.data_append, List.reverse_append,
    List.append_assoc]
  rw [List.get?_append (by decide)]
  decide

lemma foodPiece_rget2 (c : Cell) :
    (foodPiece c).data.reverse.get? 2 = some '/' := by
  simp only [foodPiece, String.data_append, List.reverse_append, List.append_assoc]
  rw [List.get?_append (by decide)]
  decide

lemma snakePiece_rget2 (i : Nat) (c : Cell) :
    (snakePiece i c).data.reverse.get? 2 = some '/' := by
  simp only [snakePiece, String.data_append, List.reverse_append, List.append_assoc]
  rw [List.get?_append (by decide)]
  decide

lemma ne_of_data_get5 {a b : String} {ca cb : Char}
    (ha : a.data.get? 5 = some ca) (hb : b.data.get? 5 = some cb)
    (hne : ca ≠ cb) : a ≠ b := by
  intro e
  rw [e, hb] at ha
  exact hne (Option.some.inj ha).symm

lemma ne_of_data_rget2 {a b : String} {ca cb : Char}
    (ha : a.data.reverse.get? 2 = some ca) (hb : b.data.reverse.get? 2 = some cb)
    (hne : ca ≠ cb) : a ≠ b := by
  intro e
  rw [e, hb] at ha
  exact hne (Option.some.inj ha).symm

lemma render_svg_split (s : GameState) :
    render_svg s =
      (String.join ([svgHeader] ++ (gridSteps widthPx).map gridVLine ++
            (gridSteps heightPx).map gridHLine ++ [foodPiece s.food] ++
            s.snake.enum.map (fun p => snakePiece p.1 p.2)) ++
          (if s.game_over then gameOverPiece s.score else scorePiece s.score)) ++
        "</svg>" := by
  simp only [render_svg, svgPieces]
  rw [join_append, join_append, join_singleton, join_singleton]

/-- C7: with `game_over = true` the rendered SVG contains the full-canvas
overlay rectangle and the "GAME OVER" text, and the bottom-left score readout
is not among the emitted elements; with `game_over = false` the SVG contains
the bottom-left score readout and the overlay block is not among the emitted
elements. -/
theorem render_game_over_dichotomy (s : GameState) :
    (s.game_over = true →
        occursIn overlayRect (render_svg s) ∧
        occursIn "GAME OVER" (render_svg s) ∧
        scorePiece s.score ∉ svgPieces s) ∧
      (s.game_over = false →
        occursIn (scorePiece s.score) (render_svg s) ∧
        gameOverPiece s.score ∉ svgPieces s) := by
  constructor
  · intro hgo
    refine ⟨?_, ?_, ?_⟩
    · rw [render_svg_split s, if_pos hgo]
      apply occursIn_append_l
      apply occursIn_append_r
      simp only [gameOverPiece]
      iterate 19 apply occursIn_append_l
      exact occursIn_refl _
    · rw [render_svg_split s, if_pos hgo]
      apply occursIn_append_l
      apply occursIn_append_r
      simp only [gameOverPiece]
      iterate 13 apply occursIn_append_l
      exact occursIn_end _ _
    · intro hmem
      simp only [svgPieces, if_pos hgo, List.append_assoc, List.mem_append,
        List.mem_singleton, List.mem_map, List.mem_cons, List.not_mem_nil,
        or_false] at hmem
      rcases hmem with h | h | h | h | h | h | h
      · exact absurd h (ne_of_data_get5 (scorePiece_get5 _) svgHeader_get5 (by decide))
      · obtain ⟨x, -, he⟩ := h
        exact absurd he (ne_of_data_get5 (gridVLine_get5 _) (scorePiece_get5 _) (by decide))
      · obtain ⟨y, -, he⟩ := h
        exact absurd he (ne_of_data_get5 (gridHLine_get5 _) (scorePiece_get5 _) (by decide))
      · exact absurd h (ne_of_data_get5 (scorePiece_get5 _) (foodPiece_get5 _) (by decide))
      · obtain ⟨p, -, he⟩ := h
        exact absurd he (ne_of_data_get5 (snakePiece_get5 _ _) (scorePiece_get5 _) (by decide))
      · exact absurd h (ne_of_data_get5 (scorePiece_get5 _) (gameOverPiece_get5 _) (by decide))
      · exact absurd h (ne_of_data_get5 (scorePiece_get5 _) closeTag_get5 (by decide))
  · intro hgo
    have hneg : ¬(s.game_over = true) := by simp [hgo]
    refine ⟨?_, ?_⟩
    · rw [render_svg_split s, if_neg hneg]
      apply occursIn_append_l
      exact occursIn_end _ _
    · intro hmem
      simp only [svgPieces, if_neg hneg, List.append_assoc, List.mem_append,
        List.mem_singleton, List.mem_map, List.mem_cons, List.not_mem_nil,
        or_false] at hmem
      rcases hmem with h | h | h | h | h | h | h
      · exact absurd h (ne_of_data_get5 (gameOverPiece_get5 _) svgHeader_get5 (by decide))
      · obtain ⟨x, -, he⟩ := h
        exact absurd he (ne_of_data_get5 (gridVLine_get5 _) (gameOverPiece_get5 _) (by decide))
      · obtain ⟨y, -, he⟩ := h
        exact absurd he (ne_of_data_get5 (gridHLine_get5 _) (gameOverPiece_get5 _) (by decide))
      · exact absurd h (ne_of_data_rget2 (gameOverPiece_rget2 _) (foodPiece_rget2 _) (by decide))
      · obtain ⟨p, -, he⟩ := h
        exact absurd he (ne_of_data_rget2 (snakePiece_rget2 _ _) (gameOverPiece_rget2 _) (by decide))
      · exact absurd h (ne_of_data_get5 (gameOverPiece_get5 _) (scorePiece_get5 _) (by decide))
      · exact absurd h (ne_of_data_get5 (gameOverPiece_get5 _) closeTag_get5 (by decide))

/-- Witness for `render_game_over_dichotomy` at a finished and at a live
state. -/
theorem render_game_over_dichotomy_witness :
    (occursIn overlayRect
        (render_svg { get_initial_state "0" with game_over := true }) ∧
      occursIn "GAME OVER"
        (render_svg { get_initial_state "0" with game_over := true }) ∧
      scorePiece ({ get_initial_state "0" with game_over := true } : GameState).score ∉
        svgPieces { get_initial_state "0" with game_over := true }) ∧
      (occursIn (scorePiece (get_initial_state "0").score)
          (render_svg (get_initial_state "0")) ∧
        gameOverPiece (get_initial_state "0").score ∉
          svgPieces (get_initial_state "0")) :=
  ⟨(render_game_over_dichotomy { get_initial_state "0" with game_over := true }).1 rfl,
   (render_game_over_dichotomy (get_initial_state "0")).2 rfl⟩

end SnakeApi
